import Mathlib

/-!
Verification of the DAP (Debug Adapter Protocol) front-end in
`src/langserver/debugger/mod.rs`: the `Debugger` session state, the
envelope layer (`handle_input` / `handle_input_inner`), the outgoing
sequence counter (`next_seq`, `issue_event`), and the three request
handlers (Initialize, LaunchVsc, Disconnect).

OS interactions (process spawn, kill, wait, thread spawn) are modelled by
an oracle `Os` supplying the result of each call, and every handler
additionally records the trace of OS actions it performed and the
messages it wrote through the transport, in order.
-/

deriving instance DecidableEq for Except

/-- Wrap an integer into the signed 64-bit range, the semantics of Rust
`i64::wrapping_add` used by `Debugger::next_seq`. -/
def wrap64 (x : Int) : Int := (x + 2 ^ 63) % 2 ^ 64 - 2 ^ 63

/-- The successor of the sequence counter: `seq.wrapping_add(1)`. -/
def stepSeq (s : Int) : Int := wrap64 (s + 1)

/-- An opaque handle to a spawned child process (`std::process::Child`). -/
structure Child where
  id : Nat
deriving DecidableEq

/-- The exit status of a process; `code` is `None` when the exit code
cannot be determined (e.g. the process died to a signal), matching
`std::process::ExitStatus::code`. -/
structure ExitStatus where
  code : Option Int
deriving DecidableEq

/-- An OS-level error (`std::io::Error`); `msg` is its `to_string()`. -/
structure IoError where
  msg : String
deriving DecidableEq

/-- Configuration of one standard I/O stream (`std::process::Stdio`). -/
inductive StdioCfg
  | null
  | inherit
  | piped
deriving DecidableEq

/-- The full description of a process-spawn invocation built with
`std::process::Command`: program, arguments, and stdio configuration. -/
structure CommandSpec where
  program : String
  args : List String
  stdin_ : StdioCfg
  stdout_ : StdioCfg
  stderr_ : StdioCfg
deriving DecidableEq

/-- Oracle for the fallible OS calls the debugger makes.  `threadSpawn c`
is the result of `std::thread::Builder::spawn` for the detached reaper
thread whose closure waits on `c` and discards the result. -/
structure Os where
  spawn : CommandSpec → Except IoError Child
  kill : Child → Except IoError Unit
  wait : Child → Except IoError ExitStatus
  threadSpawn : Child → Except IoError Unit

/-- Client capabilities negotiated during the Initialize exchange
(`struct ClientCaps`); `#[derive(Default)]` makes every flag `false`. -/
structure ClientCaps where
  lines_start_at_1 : Bool := false
  columns_start_at_1 : Bool := false
  variable_type : Bool := false
  variable_paging : Bool := false
  run_in_terminal : Bool := false
  memory_references : Bool := false
deriving DecidableEq

/-- Arguments of the Initialize request read by `ClientCaps::parse`
(`InitializeRequestArguments` from `dap_types`: each flag optional). -/
structure InitializeRequestArguments where
  linesStartAt1 : Option Bool := none
  columnsStartAt1 : Option Bool := none
  supportsVariableType : Option Bool := none
  supportsVariablePaging : Option Bool := none
  supportsRunInTerminalRequest : Option Bool := none
  supportsMemoryReferences : Option Bool := none
deriving DecidableEq

/-- `ClientCaps::parse`: per-flag defaults (`unwrap_or`). -/
def ClientCaps.parse (params : InitializeRequestArguments) : ClientCaps where
  lines_start_at_1 := params.linesStartAt1.getD true
  columns_start_at_1 := params.columnsStartAt1.getD true
  variable_type := params.supportsVariableType.getD false
  variable_paging := params.supportsVariablePaging.getD false
  run_in_terminal := params.supportsRunInTerminalRequest.getD false
  memory_references := params.supportsMemoryReferences.getD false

/-- Modelled from the spec: the `Capabilities` result object lives in the
missing `dap_types` module.  Per the spec, it is a record of optional
capability flags whose `Default` leaves every field absent; the fields
listed here are a representative set besides `supportTerminateDebuggee`. -/
structure Capabilities where
  supportsConfigurationDoneRequest : Option Bool := none
  supportsFunctionBreakpoints : Option Bool := none
  supportsConditionalBreakpoints : Option Bool := none
  supportsEvaluateForHovers : Option Bool := none
  supportsStepBack : Option Bool := none
  supportsRestartRequest : Option Bool := none
  supportTerminateDebuggee : Option Bool := none
deriving DecidableEq

/-- `Capabilities::default()`: every capability field absent. -/
def Capabilities.defaultCaps : Capabilities := {}

/-- Arguments of the base Launch request (`LaunchRequestArguments`). -/
structure LaunchRequestArguments where
  noDebug : Option Bool := none
deriving DecidableEq

/-- `LaunchRequestArgumentsVsc`: base arguments plus the vendor-specific
debuggee path field `dmb` provided by vscode. -/
structure LaunchRequestArgumentsVsc where
  base : LaunchRequestArguments
  dmb : String
deriving DecidableEq

/-- Arguments of the Disconnect request (`DisconnectArguments` from
`dap_types`: the one optional flag read by the handler). -/
structure DisconnectArguments where
  terminateDebuggee : Option Bool := none
deriving DecidableEq

/-- The decoded `arguments` payload of an incoming request, one shape per
implemented command plus a catch-all for unknown commands. -/
inductive RequestArguments
  | initArgs (params : InitializeRequestArguments)
  | launchArgs (params : LaunchRequestArgumentsVsc)
  | disconnectArgs (params : DisconnectArguments)
  | unknownArgs
deriving DecidableEq

/-- The body of a successful response (`handled.is_ok()` payload). -/
inductive Body
  | capabilities (caps : Capabilities)
deriving DecidableEq

/-- The body of an outgoing event: `ExitedEvent { exitCode }` or
`TerminatedEvent::default()` (no exit code). -/
inductive EventBody
  | exited (exitCode : Int)
  | terminated
deriving DecidableEq

/-- The `E::EVENT` name of each event body (`"exited"`, `"terminated"`). -/
def EventBody.name : EventBody → String
  | .exited _ => "exited"
  | .terminated => "terminated"

/-- An outgoing DAP message written through `io::write`: either a
`ResponseMessage` or an `EventMessage`, with its freshly minted `seq`. -/
inductive OutMessage
  | response (seq : Int) (request_seq : Int) (command : String) (success : Bool)
      (message : Option String) (body : Option Body)
  | event (seq : Int) (event : String) (body : EventBody)
deriving DecidableEq

/-- The envelope `seq` of an outgoing message. -/
def OutMessage.outSeq : OutMessage → Int
  | .response s _ _ _ _ _ => s
  | .event s _ _ => s

/-- Whether an outgoing message is a response. -/
def OutMessage.isResponse : OutMessage → Bool
  | .response _ _ _ _ _ _ => true
  | .event _ _ _ => false

/-- The `request_seq` field of a response, if the message is one. -/
def OutMessage.requestSeqOf : OutMessage → Option Int
  | .response _ rs _ _ _ _ => some rs
  | .event _ _ _ => none

/-- The `command` field of a response, if the message is one. -/
def OutMessage.commandOf : OutMessage → Option String
  | .response _ _ c _ _ _ => some c
  | .event _ _ _ => none

/-- An OS action performed by a handler, in program order.
`spawnReaper c` records spawning the detached background thread whose
sole job is to `wait()` on `c` and discard the result. -/
inductive OsAction
  | spawn (spec : CommandSpec)
  | kill (child : Child)
  | wait (child : Child)
  | spawnReaper (child : Child)
deriving DecidableEq

/-- One observable effect: an OS action or a transport write. -/
inductive Effect
  | os (action : OsAction)
  | write (message : OutMessage)
deriving DecidableEq

/-- The messages written through the transport, in order. -/
def writes : List Effect → List OutMessage
  | [] => []
  | .write m :: t => m :: writes t
  | .os _ :: t => writes t

/-- The OS actions performed, in order. -/
def osActions : List Effect → List OsAction
  | [] => []
  | .os a :: t => a :: osActions t
  | .write _ :: t => osActions t

/-- The session state (`struct Debugger`). -/
structure Debugger where
  dreamseeker_exe : String
  child : Option Child
  seq : Int
  client_caps : ClientCaps
deriving DecidableEq

/-- `Debugger::new`: no child, counter at 0, default client caps. -/
def Debugger.new (dreamseeker_exe : String) : Debugger where
  dreamseeker_exe := dreamseeker_exe
  child := none
  seq := 0
  client_caps := {}

/-- `Debugger::next_seq`: increment the counter (wrapping) then use it. -/
def next_seq (st : Debugger) : Debugger × Int :=
  let s := stepSeq st.seq
  ({ st with seq := s }, s)

/-- `Debugger::issue_event`: mint a fresh `seq` and build the
`EventMessage` to be written. -/
def issue_event (st : Debugger) (body : EventBody) : Debugger × OutMessage :=
  let r := next_seq st
  (r.1, .event r.2 body.name body)

/-- Result of one request handler: the new state, the effects performed
(OS actions and event writes, in order), and the handler outcome. -/
structure HandlerResult where
  state : Debugger
  trace : List Effect
  result : Except String (Option Body)
deriving DecidableEq

/-- The Initialize handler: overwrite `client_caps` from the request and
return the adapter's capabilities (`supportTerminateDebuggee: true`, all
else `Default::default()`). -/
def onInitialize (st : Debugger) (params : InitializeRequestArguments) : HandlerResult where
  state := { st with client_caps := ClientCaps.parse params }
  trace := []
  result := .ok (some (.capabilities
    { Capabilities.defaultCaps with supportTerminateDebuggee := some true }))

/-- The spawn invocation built by the LaunchVsc handler: the configured
debuggee executable, the `dmb` path argument, the fixed `-trusted` flag,
and all three stdio streams nulled. -/
def launchSpec (exe dmb : String) : CommandSpec where
  program := exe
  args := [dmb, "-trusted"]
  stdin_ := .null
  stdout_ := .null
  stderr_ := .null

/-- The LaunchVsc handler: spawn the debuggee and store the handle; a
spawn failure propagates as a handler error (`?`). -/
def onLaunchVsc (os : Os) (st : Debugger) (params : LaunchRequestArgumentsVsc) : HandlerResult :=
  let _debug := !(params.base.noDebug.getD false)
  let spec := launchSpec st.dreamseeker_exe params.dmb
  match os.spawn spec with
  | .error e => ⟨st, [.os (.spawn spec)], .error e.msg⟩
  | .ok child => ⟨{ st with child := some child }, [.os (.spawn spec)], .ok none⟩

/-- The Disconnect handler: `self.child.take()`, then either kill+wait
and emit an Exited event, or detach a reaper thread and emit a
Terminated event; with no tracked child it is a no-op. -/
def onDisconnect (os : Os) (st : Debugger) (params : DisconnectArguments) : HandlerResult :=
  let default_terminate := true
  let terminate := params.terminateDebuggee.getD default_terminate
  match st.child with
  | none => ⟨st, [], .ok none⟩
  | some child =>
    let st1 := { st with child := none }
    if terminate then
      match os.kill child with
      | .error e => ⟨st1, [.os (.kill child)], .error e.msg⟩
      | .ok _ =>
        match os.wait child with
        | .error e => ⟨st1, [.os (.kill child), .os (.wait child)], .error e.msg⟩
        | .ok status =>
          let code := status.code.getD (-1)
          let r := issue_event st1 (.exited code)
          ⟨r.1, [.os (.kill child), .os (.wait child), .write r.2], .ok none⟩
    else
      match os.threadSpawn child with
      | .error e => ⟨st1, [.os (.spawnReaper child)], .error e.msg⟩
      | .ok _ =>
        let r := issue_event st1 .terminated
        ⟨r.1, [.os (.spawnReaper child), .write r.2], .ok none⟩

/-- Modelled from the spec: the dispatch glue generated by the
`handle_request!` macro (whose definition is not among the given
sources) maps the command name to the typed handler, decoding the
arguments; an unknown command produces a handler error instead of a
crash.  The handler bodies themselves are translated from the source. -/
def handle_request (os : Os) (st : Debugger) (command : String)
    (arguments : RequestArguments) : HandlerResult :=
  match command, arguments with
  | "initialize", .initArgs p => onInitialize st p
  | "launch", .launchArgs p => onLaunchVsc os st p
  | "disconnect", .disconnectArgs p => onDisconnect os st p
  | c, _ => ⟨st, [], .error ("unknown command `" ++ c ++ "`")⟩

/-- A decoded incoming message: the envelope `seq` and `type` fields plus
the request payload (meaningful only when `type_` is `"request"`). -/
structure InMessage where
  seq : Int
  type_ : String
  command : String
  arguments : RequestArguments
deriving DecidableEq

/-- Result of `handle_input_inner` on one message. -/
structure StepResult where
  state : Debugger
  trace : List Effect
  result : Except String Unit
deriving DecidableEq

/-- `Debugger::handle_input_inner`: sniff the `type` discriminator; for a
request, capture `seq` and `command`, dispatch, then always build and
write a Response with a freshly minted `seq`; any other `type` is a
protocol error naming the unrecognized kind. -/
def handle_input_inner (os : Os) (st : Debugger) (msg : InMessage) : StepResult :=
  if msg.type_ = "request" then
    let request_seq := msg.seq
    let command := msg.command
    let r := handle_request os st msg.command msg.arguments
    let minted := next_seq r.state
    let response : OutMessage := .response minted.2 request_seq command
      (match r.result with | .ok _ => true | .error _ => false)
      (match r.result with | .ok _ => none | .error e => some e)
      (match r.result with | .ok b => b | .error _ => none)
    ⟨minted.1, r.trace ++ [.write response], .ok ()⟩
  else
    ⟨st, [], .error ("unknown `type` field \"" ++ msg.type_ ++ "\"")⟩

/-- Result of running the message loop on a list of inputs. -/
structure RunResult where
  state : Debugger
  trace : List Effect
  aborted : Option String
deriving DecidableEq

/-- The message loop (`io::run_forever` feeding `handle_input`): messages
are handled one at a time; `handle_input` panics on an inner error
(`.expect`), which aborts the whole session, leaving the remaining
messages unprocessed. -/
def run_loop (st : Debugger) : List (Os × InMessage) → RunResult
  | [] => ⟨st, [], none⟩
  | (os, m) :: rest =>
    let r := handle_input_inner os st m
    match r.result with
    | .ok _ =>
      let rr := run_loop r.state rest
      ⟨rr.state, r.trace ++ rr.trace, rr.aborted⟩
    | .error e => ⟨r.state, r.trace, some e⟩

/-- The envelope `seq` values of the messages written in a trace. -/
def outSeqs (t : List Effect) : List Int := (writes t).map OutMessage.outSeq

/-- The last element of `l`, or `s` when `l` is empty: the value of the
sequence counter after the messages numbered by `l` have been emitted
starting from counter value `s`. -/
def endOf (s : Int) (l : List Int) : Int := l.getLastD s

/-- `seqChainFrom s l`: starting from counter value `s`, the values in
`l` are consecutive counter values, each the wrapping successor of the
previous one (increment-then-use). -/
def seqChainFrom (s : Int) : List Int → Prop
  | [] => True
  | x :: xs => x = stepSeq s ∧ seqChainFrom x xs

/-- A concrete OS oracle on which every call succeeds, used to exercise
the model on concrete runs. -/
def osAllOk : Os where
  spawn := fun _ => .ok ⟨7⟩
  kill := fun _ => .ok ()
  wait := fun _ => .ok ⟨some 0⟩
  threadSpawn := fun _ => .ok ()

/-- A concrete OS oracle whose process spawn fails. -/
def osSpawnFail : Os := { osAllOk with
  spawn := fun _ => .error ⟨"No such file or directory (os error 2)"⟩ }

/-- A concrete OS oracle whose `kill` fails. -/
def osKillFail : Os := { osAllOk with kill := fun _ => .error ⟨"kill failed"⟩ }

/-- A concrete OS oracle whose `wait` fails. -/
def osWaitFail : Os := { osAllOk with wait := fun _ => .error ⟨"wait failed"⟩ }

/-- A concrete OS oracle whose reaper-thread spawn fails. -/
def osReaperFail : Os := { osAllOk with
  threadSpawn := fun _ => .error ⟨"thread spawn failed"⟩ }

/-- A concrete Initialize request message. -/
def initMsg : InMessage := ⟨1, "request", "initialize", .initArgs {}⟩

/-- A concrete Launch request message. -/
def launchMsg : InMessage := ⟨2, "request", "launch", .launchArgs ⟨{}, "game.dmb"⟩⟩

/-- A concrete Disconnect request message with the given flag. -/
def disconnectMsg (t : Option Bool) : InMessage :=
  ⟨3, "request", "disconnect", .disconnectArgs ⟨t⟩⟩

/-- A concrete non-request message (its `type` field is `"event"`). -/
def badMsg : InMessage := ⟨4, "event", "", .unknownArgs⟩

/-- A concrete session state with a tracked child handle. -/
def stWithChild : Debugger := { Debugger.new "ds" with child := some ⟨7⟩ }

theorem writes_append (a b : List Effect) : writes (a ++ b) = writes a ++ writes b := by
  induction a with
  | nil => rfl
  | cons e t ih => cases e <;> simp [writes, ih]

theorem osActions_append (a b : List Effect) :
    osActions (a ++ b) = osActions a ++ osActions b := by
  induction a with
  | nil => rfl
  | cons e t ih => cases e <;> simp [osActions, ih]

theorem outSeqs_append (a b : List Effect) : outSeqs (a ++ b) = outSeqs a ++ outSeqs b := by
  simp [outSeqs, writes_append]

theorem endOf_nil (s : Int) : endOf s [] = s := rfl

theorem endOf_cons (s x : Int) (l : List Int) : endOf s (x :: l) = endOf x l := by
  cases l <;> simp [endOf, List.getLastD]

theorem endOf_concat (s x : Int) (l : List Int) : endOf s (l ++ [x]) = x := by
  induction l generalizing s with
  | nil => rfl
  | cons y ys ih => rw [List.cons_append, endOf_cons, ih]

theorem endOf_append (s : Int) (l1 l2 : List Int) :
    endOf s (l1 ++ l2) = endOf (endOf s l1) l2 := by
  induction l1 generalizing s with
  | nil => rfl
  | cons x xs ih => rw [List.cons_append, endOf_cons, endOf_cons, ih]

theorem seqChainFrom_append {s : Int} {l1 l2 : List Int}
    (h1 : seqChainFrom s l1) (h2 : seqChainFrom (endOf s l1) l2) :
    seqChainFrom s (l1 ++ l2) := by
  induction l1 generalizing s with
  | nil => simpa using h2
  | cons x xs ih =>
    obtain ⟨hx, hxs⟩ := h1
    exact ⟨hx, ih hxs (by rw [endOf_cons] at h2; exact h2)⟩

theorem seqChainFrom_concat {s : Int} {l : List Int} (h : seqChainFrom s l) :
    seqChainFrom s (l ++ [stepSeq (endOf s l)]) :=
  seqChainFrom_append h ⟨rfl, trivial⟩

theorem outSeqs_write (m : OutMessage) : outSeqs [Effect.write m] = [m.outSeq] := rfl

theorem onDisconnect_seq (os : Os) (st : Debugger) (p : DisconnectArguments) :
    seqChainFrom st.seq (outSeqs (onDisconnect os st p).trace) ∧
    (onDisconnect os st p).state.seq =
      endOf st.seq (outSeqs (onDisconnect os st p).trace) := by
  unfold onDisconnect issue_event next_seq
  rcases hch : st.child with _ | child
  · simp [hch, outSeqs, writes, seqChainFrom, endOf]
  · by_cases ht : p.terminateDebuggee.getD true = true
    · rcases hk : os.kill child with e | u
      · simp [hch, ht, hk, outSeqs, writes, seqChainFrom, endOf]
      · rcases hw : os.wait child with e | status
        · simp [hch, ht, hk, hw, outSeqs, writes, seqChainFrom, endOf]
        · simp [hch, ht, hk, hw, outSeqs, writes, seqChainFrom, endOf, OutMessage.outSeq]
    · rcases hts : os.threadSpawn child with e | u
      · simp [hch, ht, hts, outSeqs, writes, seqChainFrom, endOf]
      · simp [hch, ht, hts, outSeqs, writes, seqChainFrom, endOf, OutMessage.outSeq]

theorem handle_request_seq (os : Os) (st : Debugger) (c : String) (a : RequestArguments) :
    seqChainFrom st.seq (outSeqs (handle_request os st c a).trace) ∧
    (handle_request os st c a).state.seq =
      endOf st.seq (outSeqs (handle_request os st c a).trace) := by
  unfold handle_request
  split
  · simp [onInitialize, outSeqs, writes, seqChainFrom, endOf]
  · rename_i p
    rcases hs : os.spawn (launchSpec st.dreamseeker_exe p.dmb) with e | child <;>
      simp [onLaunchVsc, hs, outSeqs, writes, seqChainFrom, endOf]
  · exact onDisconnect_seq os st _
  · simp [outSeqs, writes, seqChainFrom, endOf]

theorem handle_input_inner_seq (os : Os) (st : Debugger) (msg : InMessage) :
    seqChainFrom st.seq (outSeqs (handle_input_inner os st msg).trace) ∧
    (handle_input_inner os st msg).state.seq =
      endOf st.seq (outSeqs (handle_input_inner os st msg).trace) := by
  by_cases h : msg.type_ = "request"
  · obtain ⟨h1, h2⟩ := handle_request_seq os st msg.command msg.arguments
    simp only [handle_input_inner, if_pos h, next_seq, outSeqs_append, outSeqs_write,
      OutMessage.outSeq, endOf_append]
    refine ⟨seqChainFrom_append h1 ?_, ?_⟩
    · exact ⟨by rw [h2], trivial⟩
    · simp [endOf, h2]
  · simp [handle_input_inner, if_neg h, outSeqs, writes, seqChainFrom, endOf]

theorem run_loop_seq (msgs : List (Os × InMessage)) (st : Debugger) :
    seqChainFrom st.seq (outSeqs (run_loop st msgs).trace) ∧
    (run_loop st msgs).state.seq =
      endOf st.seq (outSeqs (run_loop st msgs).trace) := by
  induction msgs generalizing st with
  | nil => simp [run_loop, outSeqs, writes, seqChainFrom, endOf]
  | cons p rest ih =>
    obtain ⟨os, m⟩ := p
    obtain ⟨h1, h2⟩ := handle_input_inner_seq os st m
    rcases hr : (handle_input_inner os st m).result with e | u
    · simp only [run_loop, hr]
      exact ⟨h1, h2⟩
    · obtain ⟨h3, h4⟩ := ih (handle_input_inner os st m).state
      simp only [run_loop, hr, outSeqs_append, endOf_append]
      refine ⟨seqChainFrom_append h1 (by rw [← h2]; exact h3), by rw [← h2]; exact h4⟩

theorem seqChainFrom_head {s : Int} {l : List Int} (h : seqChainFrom s l)
    {a : Int} (ha : l[0]? = some a) : a = stepSeq s := by
  cases l with
  | nil => simp at ha
  | cons x xs =>
    simp at ha
    rw [← ha]
    exact h.1

theorem seqChainFrom_step {s : Int} {l : List Int} (h : seqChainFrom s l) :
    ∀ i a b, l[i]? = some a → l[i + 1]? = some b → b = stepSeq a := by
  induction l generalizing s with
  | nil => intro i a b ha _; simp at ha
  | cons x xs ih =>
    intro i a b ha hb
    cases i with
    | zero =>
      simp at ha
      have hb' : xs[0]? = some b := by simpa using hb
      rw [ha] at h
      exact seqChainFrom_head h.2 hb'
    | succ n =>
      have ha' : xs[n]? = some a := by simpa using ha
      have hb' : xs[n + 1]? = some b := by simpa using hb
      exact ih h.2 n a b ha' hb'

theorem onDisconnect_writes_events (os : Os) (st : Debugger) (p : DisconnectArguments) :
    ∀ m ∈ writes (onDisconnect os st p).trace, m.isResponse = false := by
  unfold onDisconnect issue_event next_seq
  rcases hch : st.child with _ | child
  · simp [hch, writes]
  · by_cases ht : p.terminateDebuggee.getD true = true
    · rcases hk : os.kill child with e | u
      · simp [hch, ht, hk, writes]
      · rcases hw : os.wait child with e | status
        · simp [hch, ht, hk, hw, writes]
        · simp [hch, ht, hk, hw, writes, OutMessage.isResponse]
    · rcases hts : os.threadSpawn child with e | u
      · simp [hch, ht, hts, writes]
      · simp [hch, ht, hts, writes, OutMessage.isResponse]

theorem handle_request_writes_events (os : Os) (st : Debugger) (c : String)
    (a : RequestArguments) :
    ∀ m ∈ writes (handle_request os st c a).trace, m.isResponse = false := by
  unfold handle_request
  split
  · simp [onInitialize, writes]
  · rename_i p
    rcases hs : os.spawn (launchSpec st.dreamseeker_exe p.dmb) with e | child <;>
      simp [onLaunchVsc, hs, writes]
  · exact onDisconnect_writes_events os st _
  · simp [writes]

/-- Claim C1: the outgoing sequence counter starts at 0 and is
incremented-then-used; across all outgoing messages of a session
(responses and events share the one counter) the assigned `seq` values
are consecutive — each is the wrapping successor of the previous one —
and at the signed 64-bit boundary the counter wraps rather than erroring. -/
theorem seq_counter_strictly_increasing (exe : String) (msgs : List (Os × InMessage)) :
    (Debugger.new exe).seq = 0 ∧
    (∀ a, (outSeqs (run_loop (Debugger.new exe) msgs).trace)[0]? = some a →
      a = stepSeq 0) ∧
    (∀ i a b, (outSeqs (run_loop (Debugger.new exe) msgs).trace)[i]? = some a →
      (outSeqs (run_loop (Debugger.new exe) msgs).trace)[i + 1]? = some b →
      b = stepSeq a) ∧
    stepSeq (2 ^ 63 - 1) = -(2 ^ 63) := by
  have h := (run_loop_seq msgs (Debugger.new exe)).1
  have h0 : (Debugger.new exe).seq = 0 := rfl
  rw [h0] at h
  exact ⟨rfl, fun a ha => seqChainFrom_head h ha,
    fun i a b ha hb => seqChainFrom_step h i a b ha hb, by decide⟩

/-- Concrete run exercising claim C1: two handled requests receive the
consecutive sequence numbers 1 and 2. -/
theorem seq_counter_strictly_increasing_witness : (2 : Int) = stepSeq 1 :=
  (seq_counter_strictly_increasing "ds"
    [(osAllOk, initMsg), (osAllOk, initMsg)]).2.2.1 0 1 2 (by decide) (by decide)

/-- Claim C8: handling any incoming request writes exactly one response,
and every response written carries `request_seq` equal to the request's
`seq` and `command` equal to the request's command. -/
theorem response_echoes_request (os : Os) (st : Debugger) (msg : InMessage)
    (h : msg.type_ = "request") :
    ((writes (handle_input_inner os st msg).trace).filter OutMessage.isResponse).length = 1 ∧
    ∀ m ∈ writes (handle_input_inner os st msg).trace, m.isResponse = true →
      m.requestSeqOf = some msg.seq ∧ m.commandOf = some msg.command := by
  have hev := handle_request_writes_events os st msg.command msg.arguments
  simp only [handle_input_inner, if_pos h, next_seq, writes_append]
  constructor
  · rw [List.filter_append]
    have h1 : (writes (handle_request os st msg.command msg.arguments).trace).filter
        OutMessage.isResponse = [] := by
      rw [List.filter_eq_nil_iff]
      intro m hm
      simp [hev m hm]
    rw [h1]
    rfl
  · intro m hm hr
    rcases List.mem_append.mp hm with hin | hin
    · rw [hev m hin] at hr
      cases hr
    · have : m = OutMessage.response (stepSeq (handle_request os st msg.command
          msg.arguments).state.seq) msg.seq msg.command
          (match (handle_request os st msg.command msg.arguments).result with
            | .ok _ => true | .error _ => false)
          (match (handle_request os st msg.command msg.arguments).result with
            | .ok _ => none | .error e => some e)
          (match (handle_request os st msg.command msg.arguments).result with
            | .ok b => b | .error _ => none) := by
        simpa [writes] using hin
      rw [this]
      exact ⟨rfl, rfl⟩

/-- Concrete run exercising claim C8: one Initialize request yields
exactly one response. -/
theorem response_echoes_request_witness :
    ((writes (handle_input_inner osAllOk (Debugger.new "ds") initMsg).trace).filter
      OutMessage.isResponse).length = 1 :=
  (response_echoes_request osAllOk (Debugger.new "ds") initMsg rfl).1

/-- Claim C9: an incoming message whose `type` discriminator is not
`"request"` makes processing fail with a protocol error naming the
unrecognized type, writing nothing, and the failure is fatal: the
message loop aborts with that error and the remaining messages are never
processed, instead of a `success:false` response being produced. -/
theorem unknown_type_fatal (os : Os) (st : Debugger) (msg : InMessage)
    (rest : List (Os × InMessage)) (h : msg.type_ ≠ "request") :
    handle_input_inner os st msg
      = ⟨st, [], .error ("unknown `type` field \"" ++ msg.type_ ++ "\"")⟩ ∧
    run_loop st ((os, msg) :: rest)
      = ⟨st, [], some ("unknown `type` field \"" ++ msg.type_ ++ "\"")⟩ := by
  have h1 : handle_input_inner os st msg
      = ⟨st, [], .error ("unknown `type` field \"" ++ msg.type_ ++ "\"")⟩ := by
    simp [handle_input_inner, if_neg h]
  refine ⟨h1, ?_⟩
  simp only [run_loop, h1]

/-- Concrete run exercising claim C9: a message of type `"event"` aborts
the loop at once, with pending messages left unprocessed. -/
theorem unknown_type_fatal_witness :
    run_loop (Debugger.new "ds") [(osAllOk, badMsg), (osAllOk, initMsg)]
      = ⟨Debugger.new "ds", [], some "unknown `type` field \"event\""⟩ :=
  (unknown_type_fatal osAllOk (Debugger.new "ds") badMsg [(osAllOk, initMsg)]
    (by decide)).2

/-- Claim C2: with a tracked handle, Disconnect with
`terminateDebuggee = true` kills the process, waits for it to exit, emits
exactly one `exited` event whose `exitCode` is the real exit code (or the
sentinel -1 when the code cannot be determined), removes the handle from
session state, and the successful response carries no body. -/
theorem disconnect_terminate_contract (os : Os) (st : Debugger)
    (args : DisconnectArguments) (c : Child) (status : ExitStatus) (sv : Int)
    (hch : st.child = some c)
    (ht : args.terminateDebuggee = some true)
    (hk : os.kill c = .ok ())
    (hw : os.wait c = .ok status) :
    osActions (handle_input_inner os st
        ⟨sv, "request", "disconnect", .disconnectArgs args⟩).trace
      = [.kill c, .wait c] ∧
    writes (handle_input_inner os st
        ⟨sv, "request", "disconnect", .disconnectArgs args⟩).trace
      = [.event (stepSeq st.seq) "exited" (.exited (status.code.getD (-1))),
         .response (stepSeq (stepSeq st.seq)) sv "disconnect" true none none] ∧
    (handle_input_inner os st
        ⟨sv, "request", "disconnect", .disconnectArgs args⟩).state.child = none := by
  simp [handle_input_inner, handle_request, onDisconnect, issue_event, next_seq,
    hch, ht, hk, hw, osActions, writes, osActions_append, writes_append,
    EventBody.name]

/-- Concrete run exercising claim C2: terminate-disconnect on a tracked
child kills then waits. -/
theorem disconnect_terminate_contract_witness :
    osActions (handle_input_inner osAllOk stWithChild
        (disconnectMsg (some true))).trace
      = [.kill ⟨7⟩, .wait ⟨7⟩] :=
  (disconnect_terminate_contract osAllOk stWithChild ⟨some true⟩ ⟨7⟩ ⟨some 0⟩ 3
    rfl rfl rfl rfl).1

/-- Claim C3: when the spawn of the debuggee fails, the Launch handler
returns an error (so the response has `success:false` with the OS error
message), no handle is stored, and the session state is left exactly as
it was before the attempt; the envelope layer only mints the response's
sequence number. -/
theorem launch_failure_atomic (os : Os) (st : Debugger)
    (args : LaunchRequestArgumentsVsc) (e : IoError) (sv : Int)
    (hs : os.spawn (launchSpec st.dreamseeker_exe args.dmb) = .error e) :
    (onLaunchVsc os st args).state = st ∧
    (onLaunchVsc os st args).result = .error e.msg ∧
    writes (handle_input_inner os st
        ⟨sv, "request", "launch", .launchArgs args⟩).trace
      = [.response (stepSeq st.seq) sv "launch" false (some e.msg) none] ∧
    (handle_input_inner os st ⟨sv, "request", "launch", .launchArgs args⟩).state
      = { st with seq := stepSeq st.seq } := by
  refine ⟨?_, ?_, ?_, ?_⟩ <;>
    simp [handle_input_inner, handle_request, onLaunchVsc, next_seq, hs,
      writes, writes_append]

/-- Concrete run exercising claim C3: spawning an unreachable executable
leaves the handler state untouched. -/
theorem launch_failure_atomic_witness :
    (onLaunchVsc osSpawnFail (Debugger.new "ds") ⟨{}, "game.dmb"⟩).state
      = Debugger.new "ds" :=
  (launch_failure_atomic osSpawnFail (Debugger.new "ds") ⟨{}, "game.dmb"⟩
    ⟨"No such file or directory (os error 2)"⟩ 2 rfl).1

/-- Claim C4: the Initialize handler's result is always the capabilities
object with `supportTerminateDebuggee = true` and every other capability
field at its conservative default (absent), independently of the
negotiated client flags. -/
theorem init_caps_contract (st : Debugger) (p : InitializeRequestArguments) :
    (onInitialize st p).result = .ok (some (.capabilities
      { Capabilities.defaultCaps with supportTerminateDebuggee := some true })) ∧
    (∀ st2 p2, (onInitialize st2 p2).result = (onInitialize st p).result) ∧
    ({ Capabilities.defaultCaps with supportTerminateDebuggee := some true }
      : Capabilities).supportTerminateDebuggee = some true ∧
    ({ Capabilities.defaultCaps with supportTerminateDebuggee := some true }
      : Capabilities).supportsConfigurationDoneRequest = none ∧
    ({ Capabilities.defaultCaps with supportTerminateDebuggee := some true }
      : Capabilities).supportsFunctionBreakpoints = none ∧
    ({ Capabilities.defaultCaps with supportTerminateDebuggee := some true }
      : Capabilities).supportsConditionalBreakpoints = none ∧
    ({ Capabilities.defaultCaps with supportTerminateDebuggee := some true }
      : Capabilities).supportsEvaluateForHovers = none ∧
    ({ Capabilities.defaultCaps with supportTerminateDebuggee := some true }
      : Capabilities).supportsStepBack = none ∧
    ({ Capabilities.defaultCaps with supportTerminateDebuggee := some true }
      : Capabilities).supportsRestartRequest = none :=
  ⟨rfl, fun _ _ => rfl, rfl, rfl, rfl, rfl, rfl, rfl, rfl⟩

/-- Claim C5: with a tracked handle, Disconnect with
`terminateDebuggee = false` moves the handle out of session state into a
detached reaper thread (which waits for the natural exit and discards
the result), emits exactly one `terminated` event carrying no exit code
without any wait by the session itself, and responds successfully with
no body; and an absent `terminateDebuggee` flag defaults to true. -/
theorem disconnect_detach_contract (os : Os) (st : Debugger)
    (args : DisconnectArguments) (c : Child) (sv : Int)
    (hch : st.child = some c)
    (ht : args.terminateDebuggee = some false)
    (hts : os.threadSpawn c = .ok ()) :
    osActions (handle_input_inner os st
        ⟨sv, "request", "disconnect", .disconnectArgs args⟩).trace
      = [.spawnReaper c] ∧
    writes (handle_input_inner os st
        ⟨sv, "request", "disconnect", .disconnectArgs args⟩).trace
      = [.event (stepSeq st.seq) "terminated" .terminated,
         .response (stepSeq (stepSeq st.seq)) sv "disconnect" true none none] ∧
    (handle_input_inner os st
        ⟨sv, "request", "disconnect", .disconnectArgs args⟩).state.child = none ∧
    (∀ os2 st2 (a2 : DisconnectArguments), a2.terminateDebuggee = none →
      onDisconnect os2 st2 a2 = onDisconnect os2 st2 ⟨some true⟩) := by
  refine ⟨?_, ?_, ?_, ?_⟩
  · simp [handle_input_inner, handle_request, onDisconnect, issue_event, next_seq,
      hch, ht, hts, osActions, osActions_append]
  · simp [handle_input_inner, handle_request, onDisconnect, issue_event, next_seq,
      hch, ht, hts, writes, writes_append, EventBody.name]
  · simp [handle_input_inner, handle_request, onDisconnect, issue_event, next_seq,
      hch, ht, hts]
  · intro os2 st2 a2 h2
    simp [onDisconnect, h2]

/-- Concrete run exercising claim C5: detach-disconnect on a tracked
child only spawns the reaper thread. -/
theorem disconnect_detach_contract_witness :
    osActions (handle_input_inner osAllOk stWithChild
        (disconnectMsg (some false))).trace
      = [.spawnReaper ⟨7⟩] :=
  (disconnect_detach_contract osAllOk stWithChild ⟨some false⟩ ⟨7⟩ 3
    rfl rfl rfl).1

/-- Claim C6: every Launch request spawns exactly the executable at the
configured debuggee path with the request's `dmb` path and the fixed
`-trusted` flag as arguments, all three standard streams nulled, and on
success stores the resulting handle in session state. -/
theorem launch_spawn_contract (os : Os) (st : Debugger)
    (args : LaunchRequestArgumentsVsc) (c : Child) :
    osActions (onLaunchVsc os st args).trace
      = [.spawn (launchSpec st.dreamseeker_exe args.dmb)] ∧
    launchSpec st.dreamseeker_exe args.dmb
      = ⟨st.dreamseeker_exe, [args.dmb, "-trusted"], .null, .null, .null⟩ ∧
    (os.spawn (launchSpec st.dreamseeker_exe args.dmb) = .ok c →
      (onLaunchVsc os st args).state.child = some c) := by
  refine ⟨?_, rfl, ?_⟩
  · rcases hs : os.spawn (launchSpec st.dreamseeker_exe args.dmb) with e | child <;>
      simp [onLaunchVsc, hs, osActions]
  · intro h
    simp [onLaunchVsc, h]

/-- Concrete run exercising claim C6: a successful spawn stores the
returned handle. -/
theorem launch_spawn_contract_witness :
    (onLaunchVsc osAllOk (Debugger.new "ds") ⟨{}, "game.dmb"⟩).state.child
      = some ⟨7⟩ :=
  (launch_spawn_contract osAllOk (Debugger.new "ds") ⟨{}, "game.dmb"⟩ ⟨7⟩).2.2 rfl

/-- Claim C7: a Disconnect request arriving with no tracked handle is a
no-op: the handler performs no OS action, emits no event, reports
success with no body, and the session state is unchanged apart from the
response's freshly minted sequence number. -/
theorem disconnect_noop_contract (os : Os) (st : Debugger)
    (args : DisconnectArguments) (sv : Int) (hch : st.child = none) :
    onDisconnect os st args = ⟨st, [], .ok none⟩ ∧
    (handle_input_inner os st
        ⟨sv, "request", "disconnect", .disconnectArgs args⟩).trace
      = [.write (.response (stepSeq st.seq) sv "disconnect" true none none)] ∧
    (handle_input_inner os st
        ⟨sv, "request", "disconnect", .disconnectArgs args⟩).state
      = { st with seq := stepSeq st.seq } := by
  have h1 : onDisconnect os st args = ⟨st, [], .ok none⟩ := by
    simp [onDisconnect, hch]
  refine ⟨h1, ?_, ?_⟩ <;>
    simp [handle_input_inner, handle_request, h1, next_seq]

/-- Concrete run exercising claim C7: disconnect with no tracked child
leaves the handler state untouched and performs nothing. -/
theorem disconnect_noop_contract_witness :
    onDisconnect osAllOk (Debugger.new "ds") ⟨some true⟩
      = ⟨Debugger.new "ds", [], .ok none⟩ :=
  (disconnect_noop_contract osAllOk (Debugger.new "ds") ⟨some true⟩ 3 rfl).1

/-- Claim C10: Disconnect is not atomic on error when a handle is
tracked: the handle is taken out of session state before the
kill / wait / reaper-spawn work, so if any of those fail the handler
reports the error (hence `success:false`) yet session state already
tracks no handle, no event is written, and the removal is not rolled
back. -/
theorem disconnect_error_keeps_child_removed (os : Os) (st : Debugger)
    (args : DisconnectArguments) (c : Child) (e : IoError) (sv : Int)
    (hch : st.child = some c) :
    (args.terminateDebuggee.getD true = true → os.kill c = .error e →
      onDisconnect os st args
        = ⟨{ st with child := none }, [.os (.kill c)], .error e.msg⟩ ∧
      writes (handle_input_inner os st
          ⟨sv, "request", "disconnect", .disconnectArgs args⟩).trace
        = [.response (stepSeq st.seq) sv "disconnect" false (some e.msg) none] ∧
      (handle_input_inner os st
          ⟨sv, "request", "disconnect", .disconnectArgs args⟩).state.child = none) ∧
    (args.terminateDebuggee.getD true = true → os.kill c = .ok () →
      os.wait c = .error e →
      onDisconnect os st args
        = ⟨{ st with child := none }, [.os (.kill c), .os (.wait c)], .error e.msg⟩) ∧
    (args.terminateDebuggee.getD true = false → os.threadSpawn c = .error e →
      onDisconnect os st args
        = ⟨{ st with child := none }, [.os (.spawnReaper c)], .error e.msg⟩) ∧
    (∀ m, (onDisconnect os st args).result = .error m →
      (onDisconnect os st args).state.child = none ∧
      writes (onDisconnect os st args).trace = []) := by
  refine ⟨?_, ?_, ?_, ?_⟩
  · intro ht hk
    refine ⟨?_, ?_, ?_⟩ <;>
      simp [handle_input_inner, handle_request, onDisconnect, next_seq,
        hch, ht, hk, writes, writes_append]
  · intro ht hk hw
    simp [onDisconnect, hch, ht, hk, hw]
  · intro ht hts
    simp [onDisconnect, hch, ht, hts]
  · intro m
    unfold onDisconnect issue_event next_seq
    by_cases ht : args.terminateDebuggee.getD true = true
    · rcases hk : os.kill c with e2 | u
      · simp [hch, ht, hk, writes]
      · rcases hw : os.wait c with e2 | status
        · simp [hch, ht, hk, hw, writes]
        · simp [hch, ht, hk, hw, writes]
    · rcases hts : os.threadSpawn c with e2 | u
      · simp [hch, ht, hts, writes]
      · simp [hch, ht, hts, writes]

/-- Concrete run exercising claim C10: a failing `kill` still leaves the
handle removed while the response reports the failure. -/
theorem disconnect_error_keeps_child_removed_witness :
    writes (handle_input_inner osKillFail stWithChild
        (disconnectMsg (some true))).trace
      = [.response (stepSeq stWithChild.seq) 3 "disconnect" false
          (some "kill failed") none] :=
  ((disconnect_error_keeps_child_removed osKillFail stWithChild ⟨some true⟩ ⟨7⟩
    ⟨"kill failed"⟩ 3 rfl).1 rfl rfl).2.1
